import Mathlib

/-!
Shallow embedding of the motion-input-shaping core
(`src/motion_input_shaping/zero_vibration_stream_generator.py`,
`src/motion_input_shaping/zero_vibration_trajectory_generator.py`, and the 2D
example `examples/motion_input_shaping/zero_vibration_stream_generator_2d.py`).

Numbers are modelled by `ℝ` (the Python code computes with floats; the
specification states its formulas in exact real arithmetic).  Python operations
that can raise are modelled by `Except String`: a `.error` value stands for the
exception raised at that site, the string recording the Python exception.
Exact float division by zero raises `ZeroDivisionError` in Python;
`math.sqrt` of a negative argument raises `ValueError: math domain error`;
`numpy.sqrt` of a negative argument returns NaN without raising — the only
place that can receive a negative argument is the triangular branch of the
profile generator when an acceleration is negative, a region no claim touches,
and there `Real.sqrt` returns the junk value `0` instead of NaN.
-/

namespace MotionShaping

noncomputable section

/-- `StreamSegment` dataclass from `zero_vibration_stream_generator.py`:
position, speed_limit, accel, duration. -/
structure StreamSegment where
  position : ℝ
  speed_limit : ℝ
  accel : ℝ
  duration : ℝ

/-- `ShaperType` enumeration (ZV = 1, ZVD = 2, ZVDD = 3). -/
inductive ShaperType where
  | ZV
  | ZVD
  | ZVDD
  deriving DecidableEq, Repr

/-- `numpy.sign` on a real scalar: -1, 0 or 1. -/
def np_sign (x : ℝ) : ℝ :=
  if x < 0 then -1 else if x = 0 then 0 else 1

/-- `trapezoidal_motion_generator` from `zero_vibration_stream_generator.py`.
Returns the pair (breakpoint times, accelerations).  The Python body performs
no input validation; the only failures are the exact divisions by zero, at the
sites marked below, each raising `ZeroDivisionError`. -/
def trapezoidal_motion_generator (distance acceleration deceleration max_speed_limit : ℝ) :
    Except String (List ℝ × List ℝ) :=
  if acceleration = 0 then Except.error "ZeroDivisionError" else
  if deceleration = 0 then Except.error "ZeroDivisionError" else
  let direction := np_sign distance
  let acceleration_distance := max_speed_limit ^ 2 / (2 * acceleration)
  let deceleration_distance := max_speed_limit ^ 2 / (2 * deceleration)
  let max_speed_distance := |distance| - acceleration_distance - deceleration_distance
  if max_speed_distance ≤ 0 then
    -- Max speed is not reached (triangular profile).
    if (1 / (2 * acceleration) + 1 / (2 * deceleration)) = 0 then
      Except.error "ZeroDivisionError"
    else
      let max_speed :=
        Real.sqrt (|distance| / (1 / (2 * acceleration) + 1 / (2 * deceleration)))
      let acceleration_duration := max_speed / acceleration
      let deceleration_duration := max_speed / deceleration
      let acceleration_endtime := acceleration_duration
      let deceleration_endtime := acceleration_duration + deceleration_duration
      Except.ok ([0, acceleration_endtime, deceleration_endtime],
        [acceleration * direction, deceleration * (-1 * direction), 0])
  else
    -- Trapezoidal motion.
    if max_speed_limit = 0 then Except.error "ZeroDivisionError" else
    let acceleration_duration := max_speed_limit / acceleration
    let max_speed_duration := max_speed_distance / max_speed_limit
    let deceleration_duration := max_speed_limit / deceleration
    let acceleration_endtime := acceleration_duration
    let max_speed_endtime := acceleration_endtime + max_speed_duration
    let deceleration_endtime := max_speed_endtime + deceleration_duration
    Except.ok ([0, acceleration_endtime, max_speed_endtime, deceleration_endtime],
      [acceleration * direction, 0, deceleration * (-1 * direction), 0])

/-- `np.diff(np.concatenate([np.array([0]), a]))`: the step changes of an
acceleration list, with a zero prepended. -/
def diff_with_zero (l : List ℝ) : List ℝ :=
  (l.zip (0 :: l)).map (fun r => r.1 - r.2)

/-- Running cumulative sums starting from accumulator `s` (`np.cumsum`). -/
def cumsum_from (s : ℝ) : List ℝ → List ℝ
  | [] => []
  | x :: xs => (s + x) :: cumsum_from (s + x) xs

/-- `np.cumsum`. -/
def np_cumsum (l : List ℝ) : List ℝ := cumsum_from 0 l

/-- Insert a (time, value) pair into a list sorted by time, after any entries
with an equal or smaller time key. -/
def insert_by_time (p : ℝ × ℝ) : List (ℝ × ℝ) → List (ℝ × ℝ)
  | [] => [p]
  | q :: l => if q.1 ≤ p.1 then q :: insert_by_time p l else p :: q :: l

/-- Model of `argsort`-by-time followed by fancy indexing of both arrays:
the (time, value) pairs reordered so that times are non-decreasing.
`np.argsort` is called with its default (non-stable) sort kind, so the source
does not pin down the relative order of pairs with equal times; this insertion
sort, which keeps equal-time pairs in their original relative order, is one
valid realization of it. -/
def sort_by_time (l : List (ℝ × ℝ)) : List (ℝ × ℝ) :=
  l.foldl (fun acc p => insert_by_time p acc) []

/-- `calculate_acceleration_convolution` from
`zero_vibration_stream_generator.py`.  For each impulse, every acceleration
step change is delayed by the impulse time and scaled by the impulse magnitude
(blocks concatenated in impulse order, exactly as the Python loop fills the
preallocated arrays); the events are then ordered by time and the shaped
accelerations are the cumulative sums of the ordered step magnitudes.
The Python code indexes `impulse_times[n]` for `n` ranging over `impulses`,
and broadcasts `unshaped_time` against the diff of `unshaped_acceleration`;
both pairs of lists always have equal lengths at the call sites, which is what
the `zip`s assume. -/
def calculate_acceleration_convolution
    (impulse_times impulses unshaped_time unshaped_acceleration : List ℝ) :
    List ℝ × List ℝ :=
  let unshaped_accel_changes := diff_with_zero unshaped_acceleration
  let events :=
    ((impulse_times.zip impulses).map (fun q =>
      (unshaped_time.zip unshaped_accel_changes).map (fun r => (r.1 + q.1, r.2 * q.2)))).flatten
  let sorted_events := sort_by_time events
  (sorted_events.map Prod.fst, np_cumsum (sorted_events.map Prod.snd))

/-- The loop body of `create_stream_trajectory`: walks consecutive
(time, acceleration) rows carrying the previous position and velocity. -/
def create_stream_trajectory_loop (previous_position previous_velocity : ℝ) :
    List (ℝ × ℝ) → List StreamSegment
  | (t1, a1) :: (t2, a2) :: rest =>
    let dt := t2 - t1
    let current_velocity := previous_velocity + a1 * dt
    let current_position := previous_position + (current_velocity + previous_velocity) / 2 * dt
    { position := current_position,
      speed_limit := max |current_velocity| |previous_velocity|,
      accel := |a1|,
      duration := dt } ::
      create_stream_trajectory_loop current_position current_velocity ((t2, a2) :: rest)
  | _ => []

/-- `create_stream_trajectory` from `zero_vibration_stream_generator.py`.
The Python loop runs `n` from `0` to `len(trajectory_acceleration) - 2` and
reads `trajectory_time[n + 1]`; the two lists always have equal lengths at the
call site, which is what the `zip` assumes. -/
def create_stream_trajectory (trajectory_time trajectory_acceleration : List ℝ) :
    List StreamSegment :=
  create_stream_trajectory_loop 0 0 (trajectory_time.zip trajectory_acceleration)

/-- The `resonant_frequency` property setter: rejects values ≤ 0 with
`ValueError`. -/
def set_resonant_frequency (value : ℝ) : Except String ℝ :=
  if value ≤ 0 then Except.error "Invalid resonant frequency" else Except.ok value

/-- The `damping_ratio` property setter: rejects values < 0 with `ValueError`
(every value ≥ 0 is accepted, including values ≥ 1). -/
def set_damping_ratio (value : ℝ) : Except String ℝ :=
  if value < 0 then Except.error "Invalid damping ratio" else Except.ok value

/-- `_update_shaper_impulses` from `zero_vibration_stream_generator.py`,
as a function of the resonant frequency, damping ratio and shaper type held by
the object (the class setters guarantee `resonant_frequency > 0`).  Returns
(impulse magnitudes, impulse times).  `math.sqrt (1 - ζ²)` raises
`ValueError: math domain error` when `1 - ζ² < 0`, and the division by the
square root raises `ZeroDivisionError` when it is zero.  The Python attribute
`shaper_type` is dynamically typed, so the `match` can see a value outside the
enumeration; `none` models any such value, sent by `case _` to
`ValueError("Shaper type ... is not valid.")`.
`update_shaper_impulses` in `zero_vibration_trajectory_generator.py` computes
exactly the same magnitudes and times from the same formulas (its only
differences are the dirty-flag plumbing and the exception type of the default
case), so this definition also embeds that copy. -/
def update_shaper_impulses (resonant_frequency damping_ratio : ℝ)
    (shaper_type : Option ShaperType) : Except String (List ℝ × List ℝ) :=
  if 1 - damping_ratio ^ 2 < 0 then Except.error "math domain error" else
  if Real.sqrt (1 - damping_ratio ^ 2) = 0 then Except.error "ZeroDivisionError" else
  let k := Real.exp ((-1 * Real.pi * damping_ratio) / Real.sqrt (1 - damping_ratio ^ 2))
  let resonant_period := 1 / resonant_frequency
  match shaper_type with
  | some ShaperType.ZV =>
    Except.ok ([1 / (1 + k), k / (1 + k)], [0, resonant_period / 2])
  | some ShaperType.ZVD =>
    Except.ok
      ([1 / (1 + 2 * k + k ^ 2), 2 * k / (1 + 2 * k + k ^ 2), k ^ 2 / (1 + 2 * k + k ^ 2)],
       [0, resonant_period / 2, resonant_period])
  | some ShaperType.ZVDD =>
    Except.ok
      ([1 / (1 + 3 * k + 3 * k ^ 2 + k ^ 3), 3 * k / (1 + 3 * k + 3 * k ^ 2 + k ^ 3),
        3 * k ^ 2 / (1 + 3 * k + 3 * k ^ 2 + k ^ 3), k ^ 3 / (1 + 3 * k + 3 * k ^ 2 + k ^ 3)],
       [0, resonant_period / 2, resonant_period, resonant_period * 3 / 2])
  | none => Except.error "Shaper type is not valid"

/-- `stream_segments[-1].position = distance`: overwrite the position of the
last segment. -/
def set_last_position (x : ℝ) : List StreamSegment → List StreamSegment
  | [] => []
  | [s] => [{ s with position := x }]
  | s :: t :: rest => s :: set_last_position x (t :: rest)

namespace ZeroVibrationStreamGenerator

/-- `ZeroVibrationStreamGenerator.shape_trapezoidal_motion`, as a function of
the object state (resonant frequency, damping ratio, shaper type) and the move
parameters.  The final `stream_segments[-1].position = distance` raises
`IndexError` on an empty list (never reached: the pipeline always yields at
least one segment). -/
def shape_trapezoidal_motion (resonant_frequency damping_ratio : ℝ)
    (shaper_type : Option ShaperType)
    (distance acceleration deceleration max_speed_limit : ℝ) :
    Except String (List StreamSegment) := do
  let p ← update_shaper_impulses resonant_frequency damping_ratio shaper_type
  let u ← trapezoidal_motion_generator distance acceleration deceleration max_speed_limit
  let shaped := calculate_acceleration_convolution p.2 p.1 u.1 u.2
  let stream_segments := create_stream_trajectory shaped.1 shaped.2
  match stream_segments with
  | [] => Except.error "IndexError"
  | s :: rest => Except.ok (set_last_position distance (s :: rest))

end ZeroVibrationStreamGenerator

/-- `PvtPoint` from `zero_vibration_trajectory_generator.py`. -/
structure PvtPoint where
  position : ℝ
  velocity : ℝ
  time : ℝ

/-- `basic_trapezoidal_motion_generator` from
`zero_vibration_trajectory_generator.py`: the same profile as
`trapezoidal_motion_generator`, with the branch test written as
`max_speed_distance > 0` and the result returned as (time, acceleration) rows
of an n×2 array.  Failure sites are the same exact divisions by zero. -/
def basic_trapezoidal_motion_generator
    (distance acceleration deceleration max_speed_limit : ℝ) :
    Except String (List (ℝ × ℝ)) :=
  if acceleration = 0 then Except.error "ZeroDivisionError" else
  if deceleration = 0 then Except.error "ZeroDivisionError" else
  let direction := np_sign distance
  let acceleration_distance := max_speed_limit ^ 2 / (2 * acceleration)
  let deceleration_distance := max_speed_limit ^ 2 / (2 * deceleration)
  let max_speed_distance := |distance| - acceleration_distance - deceleration_distance
  if 0 < max_speed_distance then
    -- Trapezoidal motion.
    if max_speed_limit = 0 then Except.error "ZeroDivisionError" else
    let acceleration_duration := max_speed_limit / acceleration
    let max_speed_duration := max_speed_distance / max_speed_limit
    let deceleration_duration := max_speed_limit / deceleration
    let acceleration_endtime := acceleration_duration
    let max_speed_endtime := acceleration_endtime + max_speed_duration
    let deceleration_endtime := max_speed_endtime + deceleration_duration
    Except.ok [(0, acceleration * direction), (acceleration_endtime, 0),
      (max_speed_endtime, deceleration * (-1 * direction)), (deceleration_endtime, 0)]
  else
    -- Max speed is not reached.
    if (1 / (2 * acceleration) + 1 / (2 * deceleration)) = 0 then
      Except.error "ZeroDivisionError"
    else
      let max_speed :=
        Real.sqrt (|distance| / (1 / (2 * acceleration) + 1 / (2 * deceleration)))
      let acceleration_duration := max_speed / acceleration
      let deceleration_duration := max_speed / deceleration
      let acceleration_endtime := acceleration_duration
      let deceleration_endtime := acceleration_duration + deceleration_duration
      Except.ok [(0, acceleration * direction),
        (acceleration_endtime, deceleration * (-1 * direction)), (deceleration_endtime, 0)]

/-- The point-emitting loop of
`ZeroVibrationTrajectoryGenerator.shape_trapezoidal_motion`: walks consecutive
(time, acceleration) rows, accumulates `dt` into `timestep`, and emits a
`PvtPoint` only when the accumulated `timestep` has reached
`min_pvt_timestep`, resetting the accumulator on emission. -/
def pvt_loop (min_pvt_timestep : ℝ) (previous_position previous_velocity timestep : ℝ) :
    List (ℝ × ℝ) → List PvtPoint
  | (t1, a1) :: (t2, a2) :: rest =>
    let dt := t2 - t1
    let current_velocity := previous_velocity + a1 * dt
    let current_position := previous_position + (current_velocity + previous_velocity) / 2 * dt
    let timestep1 := timestep + dt
    if min_pvt_timestep ≤ timestep1 then
      { position := current_position, velocity := current_velocity, time := timestep1 } ::
        pvt_loop min_pvt_timestep current_position current_velocity 0 ((t2, a2) :: rest)
    else
      pvt_loop min_pvt_timestep current_position current_velocity timestep1 ((t2, a2) :: rest)
  | _ => []

/-- `pvt_trajectory[-1].position = distance; pvt_trajectory[-1].velocity = 0`:
overwrite position and velocity of the last emitted point. -/
def set_last_pv (x : ℝ) : List PvtPoint → List PvtPoint
  | [] => []
  | [p] => [{ p with position := x, velocity := 0 }]
  | p :: q :: rest => p :: set_last_pv x (q :: rest)

namespace ZeroVibrationTrajectoryGenerator

/-- `ZeroVibrationTrajectoryGenerator.shape_trapezoidal_motion`, as a function
of the object state and the move parameters (including the method's own
`min_pvt_timestep` parameter, default 0.001 in Python).  The inline
delay/scale/argsort/cumsum array code of the Python method computes exactly
`calculate_acceleration_convolution` applied to the two columns of the n×2
unshaped trajectory.  The final `pvt_trajectory[-1]` overrides raise
`IndexError` when the loop emitted no point. -/
def shape_trapezoidal_motion (resonant_frequency damping_ratio : ℝ)
    (shaper_type : Option ShaperType)
    (distance acceleration deceleration max_speed_limit min_pvt_timestep : ℝ) :
    Except String (List PvtPoint) := do
  let p ← update_shaper_impulses resonant_frequency damping_ratio shaper_type
  let u ← basic_trapezoidal_motion_generator distance acceleration deceleration max_speed_limit
  let shaped :=
    calculate_acceleration_convolution p.2 p.1 (u.map Prod.fst) (u.map Prod.snd)
  let pvt_trajectory := pvt_loop min_pvt_timestep 0 0 0 (shaped.1.zip shaped.2)
  match pvt_trajectory with
  | [] => Except.error "IndexError"
  | q :: rest => Except.ok (set_last_pv distance (q :: rest))

end ZeroVibrationTrajectoryGenerator

/-- `StreamSegment2D` dataclass from the 2D example. -/
structure StreamSegment2D where
  x_position : ℝ
  y_position : ℝ
  speed_limit : ℝ
  accel : ℝ
  duration : ℝ

/-- The two `for t in ...: if not any(time == t ...): append` loops of
`get_2D_impulses`: extend `times` (and `amps`, with zero amplitudes) by every
time in the third list not already present.  The Python loops append to the
list they test membership against, so duplicates in the scanned list are not
added twice; this recursion reproduces that. -/
def extend_times (times amps : List ℝ) : List ℝ → List ℝ × List ℝ
  | [] => (times, amps)
  | t :: ts =>
    if t ∈ times then extend_times times amps ts
    else extend_times (times ++ [t]) (amps ++ [0]) ts

namespace ZeroVibrationStreamGenerator2D

/-- `ZeroVibrationStreamGenerator2D.get_2D_impulses`.  Each plant is a
(resonant frequency, damping ratio) pair.  Modelled from the spec: the
Plant-based `get_impulse_amplitudes` / `get_impulse_times` of the stream
generator module imported by the 2D example is not under `src/`; per spec §4.2
it produces the same ZV/ZVD/ZVDD closed-form amplitudes and times as
`_update_shaper_impulses`, which is used here.  The two time bases are merged
by inserting zero-amplitude impulses for missing times and both (time,
amplitude) sequences are re-sorted by time (Python sorts the zipped pairs
lexicographically; the merged times are pairwise distinct in this pipeline,
so only the time key matters).  Returns (shared impulse times, x impulses,
y impulses). -/
def get_2D_impulses (x_plant y_plant : ℝ × ℝ) (shaper_type : Option ShaperType) :
    Except String (List ℝ × List ℝ × List ℝ) := do
  let xp ← update_shaper_impulses x_plant.1 x_plant.2 shaper_type
  let yp ← update_shaper_impulses y_plant.1 y_plant.2 shaper_type
  let x2 := extend_times xp.2 xp.1 yp.2
  let y2 := extend_times yp.2 yp.1 x2.1
  let xs := sort_by_time (x2.1.zip x2.2)
  let ys := sort_by_time (y2.1.zip y2.2)
  Except.ok (xs.map Prod.fst, xs.map Prod.snd, ys.map Prod.snd)

end ZeroVibrationStreamGenerator2D

/-- The loop of `create_stream_trajectory_2d` from the 2D example: walks the
two shaped per-axis (time, acceleration) sequences in parallel (the time base
is taken from the x sequence, as in the Python code), integrating each axis
and combining into tangential speed/acceleration envelopes. -/
def create_stream_trajectory_2d_loop
    (pxp pxv pyp pyv pvel : ℝ) : List ((ℝ × ℝ) × (ℝ × ℝ)) → List StreamSegment2D
  | ((t1, ax1), (_, ay1)) :: ((t2, ax2), (ty2, ay2)) :: rest =>
    let dt := t2 - t1
    let cxv := pxv + ax1 * dt
    let cxp := pxp + (cxv + pxv) / 2 * dt
    let cyv := pyv + ay1 * dt
    let cyp := pyp + (cyv + pyv) / 2 * dt
    let cvel := Real.sqrt (cxv ^ 2 + cyv ^ 2)
    let cacc := Real.sqrt (ax1 ^ 2 + ay1 ^ 2)
    { x_position := cxp, y_position := cyp,
      speed_limit := max |cvel| |pvel|, accel := |cacc|, duration := dt } ::
      create_stream_trajectory_2d_loop cxp cxv cyp cyv cvel (((t2, ax2), (ty2, ay2)) :: rest)
  | _ => []

/-- `create_stream_trajectory_2d` from the 2D example.  The two shaped
trajectories always have equal lengths at the call site, which is what the
`zip` assumes. -/
def create_stream_trajectory_2d (x_trajectory y_trajectory : List (ℝ × ℝ)) :
    List StreamSegment2D :=
  create_stream_trajectory_2d_loop 0 0 0 0 0 (x_trajectory.zip y_trajectory)

/-- Overwrite `x_position` and `y_position` of the last 2D segment. -/
def set_last_xy (x y : ℝ) : List StreamSegment2D → List StreamSegment2D
  | [] => []
  | [s] => [{ s with x_position := x, y_position := y }]
  | s :: t :: rest => s :: set_last_xy x y (t :: rest)

namespace ZeroVibrationStreamGenerator2D

/-- `ZeroVibrationStreamGenerator2D.shape_trapezoidal_motion` from the 2D
example.  The `x_ratio = x_distance / total_distance` division raises
`ZeroDivisionError` when `total_distance == 0` (the degenerate 2D move; the
spec names this failure `DegenerateMove`), modelled by the explicit test on
`total_distance`.  Modelled from the spec: the AccelPoint-based
`trapezoidal_motion_generator` and `calculate_acceleration_convolution` of the
module imported by the 2D example are not under `src/`; per spec §4.3–4.4 they
compute the same breakpoints and shaped events as the list-based versions
embedded above, which are used here on the (time, acceleration) columns. -/
def shape_trapezoidal_motion (x_plant y_plant : ℝ × ℝ) (shaper_type : Option ShaperType)
    (x_distance y_distance acceleration deceleration max_speed_limit : ℝ) :
    Except String (List StreamSegment2D) := do
  let imp ← get_2D_impulses x_plant y_plant shaper_type
  let total_distance := Real.sqrt (x_distance ^ 2 + y_distance ^ 2)
  if total_distance = 0 then
    Except.error "ZeroDivisionError: zero total distance"
  else
    let x_ratio := x_distance / total_distance
    let y_ratio := y_distance / total_distance
    match trapezoidal_motion_generator total_distance acceleration deceleration
        max_speed_limit with
    | Except.error e => Except.error e
    | Except.ok u =>
      let sx := calculate_acceleration_convolution imp.1 imp.2.1 u.1
        (u.2.map (fun a => a * x_ratio))
      let sy := calculate_acceleration_convolution imp.1 imp.2.2 u.1
        (u.2.map (fun a => a * y_ratio))
      let stream_segments := create_stream_trajectory_2d (sx.1.zip sx.2) (sy.1.zip sy.2)
      match stream_segments with
      | [] => Except.error "IndexError"
      | s :: rest => Except.ok (set_last_xy x_distance y_distance (s :: rest))

end ZeroVibrationStreamGenerator2D

/-! ### Infrastructure lemmas -/

theorem mem_insert_by_time {x p : ℝ × ℝ} :
    ∀ {l : List (ℝ × ℝ)}, x ∈ insert_by_time p l ↔ x = p ∨ x ∈ l := by
  intro l
  induction l with
  | nil => simp [insert_by_time]
  | cons q l ih =>
    by_cases hq : q.1 ≤ p.1
    · simp only [insert_by_time, if_pos hq, List.mem_cons, ih]
      tauto
    · simp only [insert_by_time, if_neg hq, List.mem_cons]

theorem insert_by_time_pairwise {p : ℝ × ℝ} :
    ∀ {l : List (ℝ × ℝ)}, l.Pairwise (fun a b => a.1 ≤ b.1) →
      (insert_by_time p l).Pairwise (fun a b => a.1 ≤ b.1) := by
  intro l
  induction l with
  | nil => intro _; simp [insert_by_time]
  | cons q l ih =>
    intro h
    rw [List.pairwise_cons] at h
    by_cases hq : q.1 ≤ p.1
    · rw [insert_by_time, if_pos hq, List.pairwise_cons]
      refine ⟨fun x hx => ?_, ih h.2⟩
      rcases mem_insert_by_time.mp hx with rfl | hx
      · exact hq
      · exact h.1 x hx
    · rw [insert_by_time, if_neg hq, List.pairwise_cons]
      refine ⟨fun x hx => ?_, List.pairwise_cons.mpr h⟩
      rcases List.mem_cons.mp hx with rfl | hx
      · exact (lt_of_not_le hq).le
      · exact (lt_of_not_le hq).le.trans (h.1 x hx)

theorem sort_by_time_pairwise (l : List (ℝ × ℝ)) :
    (sort_by_time l).Pairwise (fun a b => a.1 ≤ b.1) := by
  suffices h : ∀ (l acc : List (ℝ × ℝ)), acc.Pairwise (fun a b => a.1 ≤ b.1) →
      (l.foldl (fun acc p => insert_by_time p acc) acc).Pairwise (fun a b => a.1 ≤ b.1) by
    exact h l [] (by simp)
  intro l
  induction l with
  | nil => intro acc h; simpa using h
  | cons p l ih =>
    intro acc h
    exact ih _ (insert_by_time_pairwise h)

theorem pairwise_zip_left :
    ∀ (tt : List ℝ) (ta : List ℝ), tt.Pairwise (· ≤ ·) →
      (tt.zip ta).Pairwise (fun a b => a.1 ≤ b.1) := by
  intro tt
  induction tt with
  | nil => intro ta _; simp
  | cons t tt ih =>
    intro ta h
    cases ta with
    | nil => simp
    | cons a ta =>
      rw [List.pairwise_cons] at h
      rw [List.zip_cons_cons, List.pairwise_cons]
      refine ⟨fun y hy => ?_, ih ta h.2⟩
      obtain ⟨y1, y2⟩ := y
      exact h.1 y1 (List.of_mem_zip hy).1

theorem conv_times_pairwise (impulse_times impulses unshaped_time unshaped_acceleration : List ℝ) :
    ((calculate_acceleration_convolution impulse_times impulses unshaped_time
      unshaped_acceleration).1).Pairwise (· ≤ ·) := by
  unfold calculate_acceleration_convolution
  exact (sort_by_time_pairwise _).map _ (fun a b h => h)

theorem set_last_position_getLast :
    ∀ (l : List StreamSegment) (s : StreamSegment) (x : ℝ),
      ((set_last_position x (s :: l)).getLast?).map StreamSegment.position = some x := by
  intro l
  induction l with
  | nil => intro s x; simp [set_last_position]
  | cons t rest ih =>
    intro s x
    have hcons : ∃ h0 tl, set_last_position x (t :: rest) = h0 :: tl := by
      cases rest with
      | nil => exact ⟨_, _, rfl⟩
      | cons u r => exact ⟨_, _, rfl⟩
    obtain ⟨h0, tl, heq⟩ := hcons
    show ((s :: set_last_position x (t :: rest)).getLast?).map StreamSegment.position = some x
    rw [heq, List.getLast?_cons_cons, ← heq]
    exact ih t x

theorem set_last_pv_getLast :
    ∀ (l : List PvtPoint) (p : PvtPoint) (x : ℝ),
      ((set_last_pv x (p :: l)).getLast?).map PvtPoint.position = some x ∧
      ((set_last_pv x (p :: l)).getLast?).map PvtPoint.velocity = some 0 := by
  intro l
  induction l with
  | nil => intro p x; simp [set_last_pv]
  | cons t rest ih =>
    intro p x
    have hcons : ∃ h0 tl, set_last_pv x (t :: rest) = h0 :: tl := by
      cases rest with
      | nil => exact ⟨_, _, rfl⟩
      | cons u r => exact ⟨_, _, rfl⟩
    obtain ⟨h0, tl, heq⟩ := hcons
    constructor
    · show ((p :: set_last_pv x (t :: rest)).getLast?).map PvtPoint.position = some x
      rw [heq, List.getLast?_cons_cons, ← heq]
      exact (ih t x).1
    · show ((p :: set_last_pv x (t :: rest)).getLast?).map PvtPoint.velocity = some 0
      rw [heq, List.getLast?_cons_cons, ← heq]
      exact (ih t x).2

theorem create_stream_trajectory_loop_duration_nonneg :
    ∀ (l : List (ℝ × ℝ)), l.Pairwise (fun a b => a.1 ≤ b.1) →
      ∀ (pp pv : ℝ) (s : StreamSegment),
        s ∈ create_stream_trajectory_loop pp pv l → 0 ≤ s.duration := by
  intro l
  induction l with
  | nil => intro _ pp pv s hs; simp [create_stream_trajectory_loop] at hs
  | cons p l ih =>
    cases l with
    | nil =>
      intro _ pp pv s hs
      obtain ⟨t1, a1⟩ := p
      simp [create_stream_trajectory_loop] at hs
    | cons q r =>
      intro hp pp pv s hs
      obtain ⟨t1, a1⟩ := p
      obtain ⟨t2, a2⟩ := q
      rw [List.pairwise_cons] at hp
      simp only [create_stream_trajectory_loop, List.mem_cons] at hs
      rcases hs with rfl | hs
      · have h12 : t1 ≤ t2 := hp.1 (t2, a2) (by simp)
        simpa using sub_nonneg.mpr h12
      · exact ih hp.2 _ _ s hs

theorem pvt_loop_eq_nil (m : ℝ) :
    ∀ (l : List (ℝ × ℝ)) (pp pv ts : ℝ),
      (∀ q ∈ l.head?, ∀ p ∈ l, ts + (p.1 - q.1) < m) →
      pvt_loop m pp pv ts l = [] := by
  intro l
  induction l with
  | nil => intro pp pv ts _; simp [pvt_loop]
  | cons x l ih =>
    cases l with
    | nil =>
      intro pp pv ts _
      obtain ⟨t1, a1⟩ := x
      simp [pvt_loop]
    | cons y r =>
      intro pp pv ts h
      obtain ⟨t1, a1⟩ := x
      obtain ⟨t2, a2⟩ := y
      have hstep : ts + (t2 - t1) < m :=
        h (t1, a1) (by simp) (t2, a2) (by simp)
      simp only [pvt_loop]
      rw [if_neg (by linarith)]
      apply ih
      intro q hq p hp
      simp only [List.head?_cons, Option.mem_def, Option.some.injEq] at hq
      subst hq
      have := h (t1, a1) (by simp) p (List.mem_cons_of_mem _ hp)
      simp only
      linarith

/-! ### Concrete evaluations (shared by witnesses and counterexamples) -/

theorem sqrt_quarter : Real.sqrt ((1 : ℝ) / 4) = 1 / 2 := by
  rw [show (1 / 4 : ℝ) = (1 / 2) ^ 2 by norm_num, Real.sqrt_sq (by norm_num)]

theorem sqrt_four : Real.sqrt (4 : ℝ) = 2 := by
  rw [show (4 : ℝ) = 2 ^ 2 by norm_num, Real.sqrt_sq (by norm_num)]

theorem impulses_eval :
    update_shaper_impulses 1 0 (some ShaperType.ZV) = Except.ok ([1 / 2, 1 / 2], [0, 1 / 2]) := by
  unfold update_shaper_impulses
  norm_num [Real.exp_zero]

theorem tmg_eval :
    trapezoidal_motion_generator (1 / 4) 1 1 1 = Except.ok ([0, 1 / 2, 1], [1, -1, 0]) := by
  unfold trapezoidal_motion_generator np_sign
  norm_num [abs_of_nonneg, sqrt_quarter, sqrt_four]

theorem btmg_eval :
    basic_trapezoidal_motion_generator (1 / 4) 1 1 1 =
      Except.ok [(0, 1), (1 / 2, -1), (1, 0)] := by
  unfold basic_trapezoidal_motion_generator np_sign
  norm_num [abs_of_nonneg, sqrt_quarter, sqrt_four]

theorem conv_eval :
    calculate_acceleration_convolution [0, 1 / 2] [1 / 2, 1 / 2] [0, 1 / 2, 1] [1, -1, 0] =
      ([0, 1 / 2, 1 / 2, 1, 1, 3 / 2], [1 / 2, -1 / 2, 0, 1 / 2, -1 / 2, 0]) := by
  unfold calculate_acceleration_convolution diff_with_zero sort_by_time np_cumsum
  norm_num [insert_by_time, cumsum_from]

theorem stream_eval :
    create_stream_trajectory [0, 1 / 2, 1 / 2, 1, 1, 3 / 2]
        [1 / 2, -(1 / 2), 0, 1 / 2, -(1 / 2), 0] =
      [⟨1 / 16, 1 / 4, 1 / 2, 1 / 2⟩, ⟨1 / 16, 1 / 4, 1 / 2, 0⟩, ⟨3 / 16, 1 / 4, 0, 1 / 2⟩,
       ⟨3 / 16, 1 / 4, 1 / 2, 0⟩, ⟨1 / 4, 1 / 4, 1 / 2, 1 / 2⟩] := by
  unfold create_stream_trajectory
  norm_num [create_stream_trajectory_loop, abs_of_nonneg, abs_of_nonpos]

theorem except_ok_bind {α β : Type} (a : α) (f : α → Except String β) :
    Bind.bind (Except.ok a : Except String α) f = f a := rfl

theorem except_error_bind {α β : Type} (e : String) (f : α → Except String β) :
    Bind.bind (Except.error e : Except String α) f = Except.error e := rfl

theorem shape_eval :
    ZeroVibrationStreamGenerator.shape_trapezoidal_motion 1 0 (some ShaperType.ZV)
        (1 / 4) 1 1 1 =
      Except.ok
        [⟨1 / 16, 1 / 4, 1 / 2, 1 / 2⟩, ⟨1 / 16, 1 / 4, 1 / 2, 0⟩, ⟨3 / 16, 1 / 4, 0, 1 / 2⟩,
         ⟨3 / 16, 1 / 4, 1 / 2, 0⟩, ⟨1 / 4, 1 / 4, 1 / 2, 1 / 2⟩] := by
  rw [ZeroVibrationStreamGenerator.shape_trapezoidal_motion]
  rw [impulses_eval, except_ok_bind]
  rw [tmg_eval, except_ok_bind]
  norm_num [conv_eval, stream_eval, set_last_position]

theorem pvt_shape_eval :
    ZeroVibrationTrajectoryGenerator.shape_trapezoidal_motion 1 0 (some ShaperType.ZV)
        (1 / 4) 1 1 1 (1 / 10) =
      Except.ok [⟨1 / 16, 1 / 4, 1 / 2⟩, ⟨3 / 16, 1 / 4, 1 / 2⟩, ⟨1 / 4, 0, 1 / 2⟩] := by
  rw [ZeroVibrationTrajectoryGenerator.shape_trapezoidal_motion]
  rw [impulses_eval, except_ok_bind]
  rw [btmg_eval, except_ok_bind]
  norm_num [conv_eval, pvt_loop, set_last_pv]

/-! ### Claims -/

/-- C3: for every valid plant (resonant frequency `f > 0`, damping ratio
`0 ≤ ζ < 1`), the impulse computation returns exactly the ZV/ZVD/ZVDD closed
forms built from `k = exp(-π·ζ/sqrt(1-ζ²))` and `T = 1/f`, and any family tag
outside the enumeration fails with the unsupported-shaper-family error. -/
theorem claim_C3_shaper_closed_forms (f ζ : ℝ) (hf : 0 < f) (h0 : 0 ≤ ζ) (h1 : ζ < 1) :
    update_shaper_impulses f ζ (some ShaperType.ZV) =
      Except.ok
        ([1 / (1 + Real.exp (-(Real.pi * ζ) / Real.sqrt (1 - ζ ^ 2))),
          Real.exp (-(Real.pi * ζ) / Real.sqrt (1 - ζ ^ 2)) /
            (1 + Real.exp (-(Real.pi * ζ) / Real.sqrt (1 - ζ ^ 2)))],
         [0, 1 / f / 2]) ∧
    (let k := Real.exp (-(Real.pi * ζ) / Real.sqrt (1 - ζ ^ 2))
     update_shaper_impulses f ζ (some ShaperType.ZVD) =
      Except.ok
        ([1 / (1 + 2 * k + k ^ 2), 2 * k / (1 + 2 * k + k ^ 2), k ^ 2 / (1 + 2 * k + k ^ 2)],
         [0, 1 / f / 2, 1 / f])) ∧
    (let k := Real.exp (-(Real.pi * ζ) / Real.sqrt (1 - ζ ^ 2))
     update_shaper_impulses f ζ (some ShaperType.ZVDD) =
      Except.ok
        ([1 / (1 + 3 * k + 3 * k ^ 2 + k ^ 3), 3 * k / (1 + 3 * k + 3 * k ^ 2 + k ^ 3),
          3 * k ^ 2 / (1 + 3 * k + 3 * k ^ 2 + k ^ 3), k ^ 3 / (1 + 3 * k + 3 * k ^ 2 + k ^ 3)],
         [0, 1 / f / 2, 1 / f, 1 / f * 3 / 2])) ∧
    update_shaper_impulses f ζ none = Except.error "Shaper type is not valid" := by
  have hζ2 : 0 < 1 - ζ ^ 2 := by nlinarith
  have hs : Real.sqrt (1 - ζ ^ 2) ≠ 0 := (Real.sqrt_pos.mpr hζ2).ne'
  have hk : (-1 * Real.pi * ζ) / Real.sqrt (1 - ζ ^ 2) =
      -(Real.pi * ζ) / Real.sqrt (1 - ζ ^ 2) := by ring
  refine ⟨?_, ?_, ?_, ?_⟩ <;>
    · unfold update_shaper_impulses
      rw [if_neg (not_lt.mpr hζ2.le), if_neg hs]
      try simp only [hk]
      try rfl

/-- C3 witness: the theorem applied to the concrete valid plant `f = 1`,
`ζ = 0` (here, the unknown-family conjunct). -/
theorem claim_C3_witness :
    update_shaper_impulses 1 0 none = Except.error "Shaper type is not valid" :=
  (claim_C3_shaper_closed_forms 1 0 (by norm_num) (by norm_num) (by norm_num)).2.2.2

/-- C4: for every family in {ZV, ZVD, ZVDD} and every valid plant, the
returned impulse set satisfies the ImpulseSet invariant: amplitudes sum to 1
(exactly, in the real arithmetic of this embedding), every time offset is
≥ 0, the times are non-decreasing, and the first time is exactly 0. -/
theorem claim_C4_impulse_set_invariant (f ζ : ℝ) (st : ShaperType)
    (hf : 0 < f) (h0 : 0 ≤ ζ) (h1 : ζ < 1) (amps times : List ℝ)
    (h : update_shaper_impulses f ζ (some st) = Except.ok (amps, times)) :
    amps.sum = 1 ∧ (∀ t ∈ times, 0 ≤ t) ∧ times.Pairwise (· ≤ ·) ∧
      times.head? = some 0 := by
  have hζ2 : 0 < 1 - ζ ^ 2 := by nlinarith
  have hs : Real.sqrt (1 - ζ ^ 2) ≠ 0 := (Real.sqrt_pos.mpr hζ2).ne'
  have hk : 0 < Real.exp ((-1 * Real.pi * ζ) / Real.sqrt (1 - ζ ^ 2)) := Real.exp_pos _
  have hT : 0 < 1 / f := by positivity
  set k := Real.exp ((-1 * Real.pi * ζ) / Real.sqrt (1 - ζ ^ 2)) with hkdef
  unfold update_shaper_impulses at h
  rw [if_neg (not_lt.mpr hζ2.le), if_neg hs] at h
  cases st with
  | ZV =>
    have hden : (0 : ℝ) < 1 + k := by linarith
    simp only [Except.ok.injEq, Prod.mk.injEq] at h
    obtain ⟨ha, ht⟩ := h
    subst ha; subst ht
    refine ⟨?_, ?_, ?_, rfl⟩
    · show (1 : ℝ) / (1 + k) + (k / (1 + k) + 0) = 1
      field_simp
    · intro t ht
      rcases List.mem_cons.mp ht with rfl | ht
      · exact le_refl 0
      · rcases List.mem_cons.mp ht with rfl | ht
        · positivity
        · simp at ht
    · rw [← List.chain'_iff_pairwise]
      exact List.Chain.cons (by positivity) List.Chain.nil
  | ZVD =>
    have hden : (0 : ℝ) < 1 + 2 * k + k ^ 2 := by nlinarith
    simp only [Except.ok.injEq, Prod.mk.injEq] at h
    obtain ⟨ha, ht⟩ := h
    subst ha; subst ht
    refine ⟨?_, ?_, ?_, rfl⟩
    · show (1 : ℝ) / (1 + 2 * k + k ^ 2) +
        (2 * k / (1 + 2 * k + k ^ 2) + (k ^ 2 / (1 + 2 * k + k ^ 2) + 0)) = 1
      field_simp
      ring
    · intro t ht
      rcases List.mem_cons.mp ht with rfl | ht
      · exact le_refl 0
      · rcases List.mem_cons.mp ht with rfl | ht
        · positivity
        · rcases List.mem_cons.mp ht with rfl | ht
          · positivity
          · simp at ht
    · rw [← List.chain'_iff_pairwise]
      exact List.Chain.cons (by positivity) (List.Chain.cons (by linarith) List.Chain.nil)
  | ZVDD =>
    have hden : (0 : ℝ) < 1 + 3 * k + 3 * k ^ 2 + k ^ 3 := by nlinarith
    simp only [Except.ok.injEq, Prod.mk.injEq] at h
    obtain ⟨ha, ht⟩ := h
    subst ha; subst ht
    refine ⟨?_, ?_, ?_, rfl⟩
    · show (1 : ℝ) / (1 + 3 * k + 3 * k ^ 2 + k ^ 3) +
        (3 * k / (1 + 3 * k + 3 * k ^ 2 + k ^ 3) +
          (3 * k ^ 2 / (1 + 3 * k + 3 * k ^ 2 + k ^ 3) +
            (k ^ 3 / (1 + 3 * k + 3 * k ^ 2 + k ^ 3) + 0))) = 1
      field_simp
      ring
    · intro t ht
      rcases List.mem_cons.mp ht with rfl | ht
      · exact le_refl 0
      · rcases List.mem_cons.mp ht with rfl | ht
        · positivity
        · rcases List.mem_cons.mp ht with rfl | ht
          · positivity
          · rcases List.mem_cons.mp ht with rfl | ht
            · positivity
            · simp at ht
    · rw [← List.chain'_iff_pairwise]
      exact List.Chain.cons (by positivity)
        (List.Chain.cons (by linarith) (List.Chain.cons (by linarith) List.Chain.nil))

/-- C4 witness: the invariant instantiated at the concrete valid plant
`f = 1`, `ζ = 0`, family ZV, whose impulse set is `([1/2, 1/2], [0, 1/2])`. -/
theorem claim_C4_witness :
    ([1 / 2, 1 / 2] : List ℝ).sum = 1 ∧ (∀ t ∈ ([0, 1 / 2] : List ℝ), 0 ≤ t) ∧
      ([0, 1 / 2] : List ℝ).Pairwise (· ≤ ·) ∧ ([0, 1 / 2] : List ℝ).head? = some 0 :=
  claim_C4_impulse_set_invariant 1 0 ShaperType.ZV (by norm_num) (by norm_num) (by norm_num)
    _ _ impulses_eval

/-- C9: the damping-ratio setter accepts every value ≥ 0, but for every
accepted `ζ ≥ 1` the impulse computation raises an unadvertised arithmetic
error: division by zero at `ζ = 1` and a square-root domain error for
`ζ > 1` — so `ζ < 1` is an unstated precondition of the public interface. -/
theorem claim_C9_damping_ratio_unstated_precondition (f : ℝ) (st : Option ShaperType)
    (ζ : ℝ) (hζ : 1 ≤ ζ) :
    set_damping_ratio ζ = Except.ok ζ ∧
    (ζ = 1 → update_shaper_impulses f ζ st = Except.error "ZeroDivisionError") ∧
    (1 < ζ → update_shaper_impulses f ζ st = Except.error "math domain error") := by
  refine ⟨?_, ?_, ?_⟩
  · unfold set_damping_ratio
    rw [if_neg (not_lt.mpr (by linarith))]
  · intro h1
    subst h1
    unfold update_shaper_impulses
    norm_num
  · intro h1
    unfold update_shaper_impulses
    rw [if_pos (by nlinarith)]

/-- C1: for distance ≠ 0 and positive acceleration, deceleration and speed
limit, `trapezoidal_motion_generator` returns the triangular profile —
times `[0, v*/a, v*/a + v*/d]`, accelerations `[a·dir, -d·dir, 0]` with
`v* = sqrt(|distance| / (1/(2a) + 1/(2d)))` and `dir = sign distance` —
exactly when `v* ≤ max_speed_limit`, and otherwise the trapezoidal profile
`[0, v/a, v/a + (|distance| - v²/(2a) - v²/(2d))/v, previous + v/d]` with
accelerations `[a·dir, 0, -d·dir, 0]` (v = max_speed_limit). -/
theorem claim_C1_profile_cases (distance acceleration deceleration max_speed_limit : ℝ)
    (hdist : distance ≠ 0) (ha : 0 < acceleration) (hd : 0 < deceleration)
    (hv : 0 < max_speed_limit) :
    (trapezoidal_motion_generator distance acceleration deceleration max_speed_limit =
        Except.ok
          ([0,
            Real.sqrt (|distance| / (1 / (2 * acceleration) + 1 / (2 * deceleration))) /
              acceleration,
            Real.sqrt (|distance| / (1 / (2 * acceleration) + 1 / (2 * deceleration))) /
                acceleration +
              Real.sqrt (|distance| / (1 / (2 * acceleration) + 1 / (2 * deceleration))) /
                deceleration],
           [acceleration * np_sign distance, -(deceleration * np_sign distance), 0]) ↔
      Real.sqrt (|distance| / (1 / (2 * acceleration) + 1 / (2 * deceleration))) ≤
        max_speed_limit) ∧
    (max_speed_limit <
        Real.sqrt (|distance| / (1 / (2 * acceleration) + 1 / (2 * deceleration))) →
      trapezoidal_motion_generator distance acceleration deceleration max_speed_limit =
        Except.ok
          ([0, max_speed_limit / acceleration,
            max_speed_limit / acceleration +
              (|distance| - max_speed_limit ^ 2 / (2 * acceleration) -
                max_speed_limit ^ 2 / (2 * deceleration)) / max_speed_limit,
            max_speed_limit / acceleration +
              (|distance| - max_speed_limit ^ 2 / (2 * acceleration) -
                max_speed_limit ^ 2 / (2 * deceleration)) / max_speed_limit +
              max_speed_limit / deceleration],
           [acceleration * np_sign distance, 0, -(deceleration * np_sign distance), 0])) := by
  have hS : 0 < 1 / (2 * acceleration) + 1 / (2 * deceleration) := by positivity
  have hsplit : max_speed_limit ^ 2 * (1 / (2 * acceleration) + 1 / (2 * deceleration)) =
      max_speed_limit ^ 2 / (2 * acceleration) + max_speed_limit ^ 2 / (2 * deceleration) := by
    ring
  have key : (|distance| - max_speed_limit ^ 2 / (2 * acceleration) -
      max_speed_limit ^ 2 / (2 * deceleration) ≤ 0) ↔
      Real.sqrt (|distance| / (1 / (2 * acceleration) + 1 / (2 * deceleration))) ≤
        max_speed_limit := by
    rw [Real.sqrt_le_iff]
    constructor
    · intro h
      refine ⟨hv.le, ?_⟩
      rw [div_le_iff hS]
      nlinarith
    · rintro ⟨-, h⟩
      rw [div_le_iff hS] at h
      nlinarith
  unfold trapezoidal_motion_generator
  rw [if_neg ha.ne', if_neg hd.ne']
  by_cases hb : |distance| - max_speed_limit ^ 2 / (2 * acceleration) -
      max_speed_limit ^ 2 / (2 * deceleration) ≤ 0
  · rw [if_pos hb, if_neg hS.ne']
    constructor
    · constructor
      · intro _
        exact key.mp hb
      · intro _
        ring_nf
    · intro hlt
      exact absurd (key.mp hb) (not_le.mpr hlt)
  · rw [if_neg hb, if_neg hv.ne']
    constructor
    · constructor
      · intro heq
        exfalso
        simp at heq
      · intro hle
        exact absurd (key.mpr hle) hb
    · intro _
      ring_nf

/-- C1 witness: at `distance = acceleration = deceleration = max_speed_limit
= 1` (where `v* = 1 ≤ 1`) the generator returns the triangular profile. -/
theorem claim_C1_witness :
    trapezoidal_motion_generator 1 1 1 1 =
      Except.ok
        ([0, Real.sqrt (|(1 : ℝ)| / (1 / (2 * 1) + 1 / (2 * 1))) / 1,
          Real.sqrt (|(1 : ℝ)| / (1 / (2 * 1) + 1 / (2 * 1))) / 1 +
            Real.sqrt (|(1 : ℝ)| / (1 / (2 * 1) + 1 / (2 * 1))) / 1],
         [1 * np_sign 1, -(1 * np_sign 1), 0]) :=
  (claim_C1_profile_cases 1 1 1 1 (by norm_num) (by norm_num) (by norm_num)
      (by norm_num)).1.mpr (by norm_num [Real.sqrt_one])

/-- C5 counterexample: the claim says generation fails whenever
`distance = 0`; in fact `trapezoidal_motion_generator 0 1 1 1` raises nothing
and returns the degenerate all-zero triangular profile. -/
theorem claim_C5_counterexample :
    trapezoidal_motion_generator 0 1 1 1 = Except.ok ([0, 0, 0], [0, 0, 0]) := by
  unfold trapezoidal_motion_generator np_sign
  norm_num [Real.sqrt_zero]

/-- C5 (amended): the generator raises (`ZeroDivisionError`, producing no
output) on the exact divisions by zero — `acceleration = 0`,
`deceleration = 0`, or `max_speed_limit = 0` when a cruise segment is
required — but a zero-distance move with positive parameters is NOT rejected
(it returns a degenerate all-zero profile), and negative accelerations are
not rejected either; an error is also propagated by
`shape_trapezoidal_motion`, which then emits no segment. -/
theorem claim_C5_failure_characterization
    (distance acceleration deceleration max_speed_limit : ℝ) :
    (trapezoidal_motion_generator distance 0 deceleration max_speed_limit =
        Except.error "ZeroDivisionError") ∧
    (acceleration ≠ 0 →
      trapezoidal_motion_generator distance acceleration 0 max_speed_limit =
        Except.error "ZeroDivisionError") ∧
    (0 < acceleration → 0 < deceleration → distance ≠ 0 →
      trapezoidal_motion_generator distance acceleration deceleration 0 =
        Except.error "ZeroDivisionError") ∧
    (0 < acceleration → 0 < deceleration →
      trapezoidal_motion_generator 0 acceleration deceleration max_speed_limit =
        Except.ok ([0, 0, 0], [0, 0, 0])) ∧
    (acceleration < 0 → 0 < deceleration →
      0 < |distance| - max_speed_limit ^ 2 / (2 * acceleration) -
        max_speed_limit ^ 2 / (2 * deceleration) → max_speed_limit ≠ 0 →
      ∃ r, trapezoidal_motion_generator distance acceleration deceleration max_speed_limit =
        Except.ok r) ∧
    (∀ (f ζ : ℝ) (st : Option ShaperType) (p : List ℝ × List ℝ),
      update_shaper_impulses f ζ st = Except.ok p →
      ZeroVibrationStreamGenerator.shape_trapezoidal_motion f ζ st distance 0 deceleration
        max_speed_limit = Except.error "ZeroDivisionError") := by
  refine ⟨?_, ?_, ?_, ?_, ?_, ?_⟩
  · unfold trapezoidal_motion_generator
    rw [if_pos rfl]
  · intro ha
    unfold trapezoidal_motion_generator
    rw [if_neg ha, if_pos rfl]
  · intro ha hd hdist
    unfold trapezoidal_motion_generator
    rw [if_neg ha.ne', if_neg hd.ne']
    have hmsd : ¬ (|distance| - (0 : ℝ) ^ 2 / (2 * acceleration) -
        (0 : ℝ) ^ 2 / (2 * deceleration) ≤ 0) := by
      simpa using abs_pos.mpr hdist
    rw [if_neg hmsd, if_pos rfl]
  · intro ha hd
    have h1 : (0 : ℝ) ≤ max_speed_limit ^ 2 / (2 * acceleration) := by positivity
    have h2 : (0 : ℝ) ≤ max_speed_limit ^ 2 / (2 * deceleration) := by positivity
    have hS : 0 < 1 / (2 * acceleration) + 1 / (2 * deceleration) := by positivity
    unfold trapezoidal_motion_generator np_sign
    rw [if_neg ha.ne', if_neg hd.ne',
      if_pos (by rw [abs_zero]; linarith), if_neg hS.ne']
    norm_num
  · intro ha hd hmsd hvne
    unfold trapezoidal_motion_generator
    rw [if_neg ha.ne, if_neg hd.ne', if_neg (not_le.mpr hmsd), if_neg hvne]
    exact ⟨_, rfl⟩
  · intro f ζ st p hp
    unfold ZeroVibrationStreamGenerator.shape_trapezoidal_motion
    rw [hp, except_ok_bind]
    have h0 : trapezoidal_motion_generator distance 0 deceleration max_speed_limit =
        Except.error "ZeroDivisionError" := by
      unfold trapezoidal_motion_generator
      rw [if_pos rfl]
    rw [h0]
    rfl

/-- C5 witness: the amended characterization instantiated at concrete inputs:
zero acceleration, zero deceleration and zero speed limit each raise, while a
zero-distance move with positive parameters succeeds. -/
theorem claim_C5_witness :
    trapezoidal_motion_generator 1 0 1 1 = Except.error "ZeroDivisionError" ∧
    trapezoidal_motion_generator 1 1 0 1 = Except.error "ZeroDivisionError" ∧
    trapezoidal_motion_generator 1 1 1 0 = Except.error "ZeroDivisionError" ∧
    trapezoidal_motion_generator 0 1 1 1 = Except.ok ([0, 0, 0], [0, 0, 0]) :=
  ⟨(claim_C5_failure_characterization 1 1 1 1).1,
   (claim_C5_failure_characterization 1 1 1 1).2.1 (by norm_num),
   (claim_C5_failure_characterization 1 1 1 1).2.2.1 (by norm_num) (by norm_num) (by norm_num),
   (claim_C5_failure_characterization 0 1 1 1).2.2.2.1 (by norm_num) (by norm_num)⟩

/-- C9 witness: the theorem applied at `ζ = 1` (accepted by the setter,
impulse computation divides by zero). -/
theorem claim_C9_witness :
    set_damping_ratio 1 = Except.ok 1 ∧
    update_shaper_impulses 1 1 (some ShaperType.ZV) = Except.error "ZeroDivisionError" :=
  ⟨(claim_C9_damping_ratio_unstated_precondition 1 (some ShaperType.ZV) 1 le_rfl).1,
   (claim_C9_damping_ratio_unstated_precondition 1 (some ShaperType.ZV) 1 le_rfl).2.1 rfl⟩

/-- C2: for every successful call of the shaping pipeline, the last returned
element has its position set to the commanded distance by explicit override —
in segment mode and in sampled-point mode — and in sampled-point mode the last
point's velocity is additionally exactly 0. -/
theorem claim_C2_terminal_override :
    (∀ (f ζ : ℝ) (st : Option ShaperType)
      (distance acceleration deceleration max_speed_limit : ℝ)
      (segs : List StreamSegment),
      ZeroVibrationStreamGenerator.shape_trapezoidal_motion f ζ st distance acceleration
        deceleration max_speed_limit = Except.ok segs →
      (segs.getLast?).map StreamSegment.position = some distance) ∧
    (∀ (f ζ : ℝ) (st : Option ShaperType)
      (distance acceleration deceleration max_speed_limit min_pvt_timestep : ℝ)
      (pts : List PvtPoint),
      ZeroVibrationTrajectoryGenerator.shape_trapezoidal_motion f ζ st distance acceleration
        deceleration max_speed_limit min_pvt_timestep = Except.ok pts →
      (pts.getLast?).map PvtPoint.position = some distance ∧
      (pts.getLast?).map PvtPoint.velocity = some 0) := by
  constructor
  · intro f ζ st distance acceleration deceleration max_speed_limit segs h
    unfold ZeroVibrationStreamGenerator.shape_trapezoidal_motion at h
    cases hu : update_shaper_impulses f ζ st with
    | error e => rw [hu] at h; simp [except_error_bind] at h
    | ok p =>
      rw [hu, except_ok_bind] at h
      cases ht : trapezoidal_motion_generator distance acceleration deceleration
          max_speed_limit with
      | error e => rw [ht] at h; simp [except_error_bind] at h
      | ok u =>
        rw [ht, except_ok_bind] at h
        have h2 : (match create_stream_trajectory
            (calculate_acceleration_convolution p.2 p.1 u.1 u.2).1
            (calculate_acceleration_convolution p.2 p.1 u.1 u.2).2 with
          | [] => (Except.error "IndexError" : Except String (List StreamSegment))
          | s :: rest => Except.ok (set_last_position distance (s :: rest))) =
            Except.ok segs := h
        cases hcs : create_stream_trajectory
            (calculate_acceleration_convolution p.2 p.1 u.1 u.2).1
            (calculate_acceleration_convolution p.2 p.1 u.1 u.2).2 with
        | nil => rw [hcs] at h2; simp at h2
        | cons s rest =>
          rw [hcs] at h2
          simp only [Except.ok.injEq] at h2
          subst h2
          exact set_last_position_getLast rest s distance
  · intro f ζ st distance acceleration deceleration max_speed_limit min_pvt_timestep pts h
    unfold ZeroVibrationTrajectoryGenerator.shape_trapezoidal_motion at h
    cases hu : update_shaper_impulses f ζ st with
    | error e => rw [hu] at h; simp [except_error_bind] at h
    | ok p =>
      rw [hu, except_ok_bind] at h
      cases ht : basic_trapezoidal_motion_generator distance acceleration deceleration
          max_speed_limit with
      | error e => rw [ht] at h; simp [except_error_bind] at h
      | ok u =>
        rw [ht, except_ok_bind] at h
        have h2 : (match pvt_loop min_pvt_timestep 0 0 0
            ((calculate_acceleration_convolution p.2 p.1 (u.map Prod.fst)
                (u.map Prod.snd)).1.zip
              (calculate_acceleration_convolution p.2 p.1 (u.map Prod.fst)
                (u.map Prod.snd)).2) with
          | [] => (Except.error "IndexError" : Except String (List PvtPoint))
          | q :: rest => Except.ok (set_last_pv distance (q :: rest))) =
            Except.ok pts := h
        cases hl : pvt_loop min_pvt_timestep 0 0 0
            ((calculate_acceleration_convolution p.2 p.1 (u.map Prod.fst)
                (u.map Prod.snd)).1.zip
              (calculate_acceleration_convolution p.2 p.1 (u.map Prod.fst)
                (u.map Prod.snd)).2) with
        | nil => rw [hl] at h2; simp at h2
        | cons q rest =>
          rw [hl] at h2
          simp only [Except.ok.injEq] at h2
          subst h2
          exact set_last_pv_getLast rest q distance

/-- C2 witness: the override applied to the concrete successful runs of both
pipelines (plant `f = 1`, `ζ = 0`, ZV, distance 1/4, unit limits). -/
theorem claim_C2_witness :
    (([⟨1 / 16, 1 / 4, 1 / 2, 1 / 2⟩, ⟨1 / 16, 1 / 4, 1 / 2, 0⟩, ⟨3 / 16, 1 / 4, 0, 1 / 2⟩,
       ⟨3 / 16, 1 / 4, 1 / 2, 0⟩, ⟨1 / 4, 1 / 4, 1 / 2, 1 / 2⟩] :
        List StreamSegment).getLast?).map StreamSegment.position = some (1 / 4) ∧
    (([⟨1 / 16, 1 / 4, 1 / 2⟩, ⟨3 / 16, 1 / 4, 1 / 2⟩, ⟨1 / 4, 0, 1 / 2⟩] :
        List PvtPoint).getLast?).map PvtPoint.position = some (1 / 4) ∧
    (([⟨1 / 16, 1 / 4, 1 / 2⟩, ⟨3 / 16, 1 / 4, 1 / 2⟩, ⟨1 / 4, 0, 1 / 2⟩] :
        List PvtPoint).getLast?).map PvtPoint.velocity = some 0 :=
  ⟨claim_C2_terminal_override.1 1 0 (some ShaperType.ZV) (1 / 4) 1 1 1 _ shape_eval,
   (claim_C2_terminal_override.2 1 0 (some ShaperType.ZV) (1 / 4) 1 1 1 (1 / 10) _
     pvt_shape_eval).1,
   (claim_C2_terminal_override.2 1 0 (some ShaperType.ZV) (1 / 4) 1 1 1 (1 / 10) _
     pvt_shape_eval).2⟩

/-- C7 counterexample: the claim says every emitted `MotionSegment` has
strictly positive duration; at plant `f = 1`, `ζ = 0`, family ZV and move
`distance (1/4)`, `acceleration = deceleration = max_speed_limit = 1`, the
shaper delay `T/2 = 1/2` coincides with the triangular breakpoint gap and the
segment-mode pipeline emits zero-duration segments. -/
theorem claim_C7_counterexample :
    ZeroVibrationStreamGenerator.shape_trapezoidal_motion 1 0 (some ShaperType.ZV)
        (1 / 4) 1 1 1 =
      Except.ok
        [⟨1 / 16, 1 / 4, 1 / 2, 1 / 2⟩, ⟨1 / 16, 1 / 4, 1 / 2, 0⟩, ⟨3 / 16, 1 / 4, 0, 1 / 2⟩,
         ⟨3 / 16, 1 / 4, 1 / 2, 0⟩, ⟨1 / 4, 1 / 4, 1 / 2, 1 / 2⟩] ∧
    ¬ (∀ s ∈ ([⟨1 / 16, 1 / 4, 1 / 2, 1 / 2⟩, ⟨1 / 16, 1 / 4, 1 / 2, 0⟩,
          ⟨3 / 16, 1 / 4, 0, 1 / 2⟩, ⟨3 / 16, 1 / 4, 1 / 2, 0⟩,
          ⟨1 / 4, 1 / 4, 1 / 2, 1 / 2⟩] : List StreamSegment), 0 < s.duration) := by
  refine ⟨shape_eval, fun hall => ?_⟩
  have h := hall ⟨1 / 16, 1 / 4, 1 / 2, 0⟩
    (List.mem_cons_of_mem _ (List.mem_cons_self _ _))
  norm_num at h

/-- C7 (amended): every emitted `MotionSegment` of the segment-mode pipeline
has nonnegative duration — the shaped event times consumed by
`create_stream_trajectory` are non-decreasing — but zero-duration segments are
emitted whenever shaped event times tie; no minimum-duration filtering
occurs. -/
theorem claim_C7_durations_nonneg
    (impulse_times impulses unshaped_time unshaped_acceleration : List ℝ) :
    ∀ s ∈ create_stream_trajectory
        (calculate_acceleration_convolution impulse_times impulses unshaped_time
          unshaped_acceleration).1
        (calculate_acceleration_convolution impulse_times impulses unshaped_time
          unshaped_acceleration).2,
      0 ≤ s.duration := by
  intro s hs
  unfold create_stream_trajectory at hs
  exact create_stream_trajectory_loop_duration_nonneg _
    (pairwise_zip_left _ _
      (conv_times_pairwise impulse_times impulses unshaped_time unshaped_acceleration))
    0 0 s hs

/-- C7 witness: the nonnegativity applied to a concrete emitted segment (the
zero-duration one from the tied-times run). -/
theorem claim_C7_witness : (0 : ℝ) ≤ (⟨1 / 16, 1 / 4, 1 / 2, 0⟩ : StreamSegment).duration :=
  claim_C7_durations_nonneg [0, 1 / 2] [1 / 2, 1 / 2] [0, 1 / 2, 1] [1, -1, 0]
    ⟨1 / 16, 1 / 4, 1 / 2, 0⟩ (by
      rw [conv_eval]
      norm_num [stream_eval])

/-- C10: in sampled-point mode a `PvtPoint` is emitted only once the
accumulated interval time reaches `min_pvt_timestep`; whenever every pair of
shaped event times is closer than `min_pvt_timestep` (in particular whenever
the whole shaped trajectory is shorter than it), no point is ever emitted and
`shape_trapezoidal_motion` fails with `IndexError` at the final
position/velocity override instead of returning a result. -/
theorem claim_C10_short_trajectory_index_error (f ζ : ℝ) (st : Option ShaperType)
    (distance acceleration deceleration max_speed_limit min_pvt_timestep : ℝ)
    (imps its : List ℝ) (u : List (ℝ × ℝ))
    (h1 : update_shaper_impulses f ζ st = Except.ok (imps, its))
    (h2 : basic_trapezoidal_motion_generator distance acceleration deceleration
      max_speed_limit = Except.ok u)
    (h3 : ∀ t ∈ (calculate_acceleration_convolution its imps (u.map Prod.fst)
          (u.map Prod.snd)).1,
        ∀ t2 ∈ (calculate_acceleration_convolution its imps (u.map Prod.fst)
          (u.map Prod.snd)).1,
        t2 - t < min_pvt_timestep) :
    ZeroVibrationTrajectoryGenerator.shape_trapezoidal_motion f ζ st distance acceleration
      deceleration max_speed_limit min_pvt_timestep = Except.error "IndexError" := by
  unfold ZeroVibrationTrajectoryGenerator.shape_trapezoidal_motion
  rw [h1, except_ok_bind, h2, except_ok_bind]
  have hnil : pvt_loop min_pvt_timestep 0 0 0
      ((calculate_acceleration_convolution its imps (u.map Prod.fst)
          (u.map Prod.snd)).1.zip
        (calculate_acceleration_convolution its imps (u.map Prod.fst)
          (u.map Prod.snd)).2) = [] := by
    apply pvt_loop_eq_nil
    intro q hq p hp
    have hqmem : q ∈ (calculate_acceleration_convolution its imps (u.map Prod.fst)
        (u.map Prod.snd)).1.zip
        (calculate_acceleration_convolution its imps (u.map Prod.fst)
          (u.map Prod.snd)).2 := List.mem_of_mem_head? hq
    obtain ⟨q1, q2⟩ := q
    obtain ⟨p1, p2⟩ := p
    have hq1 := (List.of_mem_zip hqmem).1
    have hp1 := (List.of_mem_zip hp).1
    have := h3 q1 hq1 p1 hp1
    simpa using this
  show (match pvt_loop min_pvt_timestep 0 0 0
      ((calculate_acceleration_convolution its imps (u.map Prod.fst)
          (u.map Prod.snd)).1.zip
        (calculate_acceleration_convolution its imps (u.map Prod.fst)
          (u.map Prod.snd)).2) with
    | [] => (Except.error "IndexError" : Except String (List PvtPoint))
    | q :: rest => Except.ok (set_last_pv distance (q :: rest))) =
      Except.error "IndexError"
  rw [hnil]

/-- C10 witness: a concrete valid move (plant `f = 1`, `ζ = 0`, ZV, distance
1/4, unit limits) whose whole shaped trajectory lasts 1.5 while
`min_pvt_timestep = 10`: the call fails with `IndexError`. -/
theorem claim_C10_witness :
    ZeroVibrationTrajectoryGenerator.shape_trapezoidal_motion 1 0 (some ShaperType.ZV)
      (1 / 4) 1 1 1 10 = Except.error "IndexError" :=
  claim_C10_short_trajectory_index_error 1 0 (some ShaperType.ZV) (1 / 4) 1 1 1 10
    _ _ _ impulses_eval btmg_eval (by
      intro t ht t2 ht2
      norm_num [conv_eval] at ht ht2
      rcases ht with rfl | rfl | rfl | rfl | rfl <;>
        rcases ht2 with rfl | rfl | rfl | rfl | rfl <;> norm_num)

/-- Every failure of `trapezoidal_motion_generator` is a `ZeroDivisionError`:
no other exception is raised by its body. -/
theorem tmg_error_is_zero_division
    (distance acceleration deceleration max_speed_limit : ℝ) (e : String)
    (h : trapezoidal_motion_generator distance acceleration deceleration max_speed_limit =
      Except.error e) : e = "ZeroDivisionError" := by
  simp only [trapezoidal_motion_generator] at h
  split_ifs at h <;> simp_all

/-- Evaluation of the merged 2D impulse set for two identical ZV plants
`(f, ζ) = (1, 0)`: both axes keep `([0, 1/2], [1/2, 1/2])`. -/
theorem impulses2d_eval :
    ZeroVibrationStreamGenerator2D.get_2D_impulses (1, 0) (1, 0) (some ShaperType.ZV) =
      Except.ok ([0, 1 / 2], [1 / 2, 1 / 2], [1 / 2, 1 / 2]) := by
  unfold ZeroVibrationStreamGenerator2D.get_2D_impulses
  norm_num [impulses_eval, except_ok_bind, extend_times, sort_by_time, insert_by_time]

/-- C8: `ZeroVibrationStreamGenerator2D.shape_trapezoidal_motion` fails with
the degenerate-move error (the `ZeroDivisionError` of the direction-cosine
division, the spec's `DegenerateMove`) exactly for the zero-total-distance
move `x_distance = y_distance = 0`, producing no output segments; a move with
nonzero total distance never produces that error. -/
theorem claim_C8_degenerate_move (x_plant y_plant : ℝ × ℝ) (st : Option ShaperType)
    (x_distance y_distance acceleration deceleration max_speed_limit : ℝ)
    (imp : List ℝ × List ℝ × List ℝ)
    (himp : ZeroVibrationStreamGenerator2D.get_2D_impulses x_plant y_plant st =
      Except.ok imp) :
    (x_distance = 0 → y_distance = 0 →
      ZeroVibrationStreamGenerator2D.shape_trapezoidal_motion x_plant y_plant st
        x_distance y_distance acceleration deceleration max_speed_limit =
        Except.error "ZeroDivisionError: zero total distance") ∧
    (¬ (x_distance = 0 ∧ y_distance = 0) →
      ZeroVibrationStreamGenerator2D.shape_trapezoidal_motion x_plant y_plant st
        x_distance y_distance acceleration deceleration max_speed_limit ≠
        Except.error "ZeroDivisionError: zero total distance") := by
  constructor
  · intro hx hy
    subst hx; subst hy
    unfold ZeroVibrationStreamGenerator2D.shape_trapezoidal_motion
    rw [himp, except_ok_bind]
    rw [if_pos (by norm_num [Real.sqrt_zero])]
  · intro hxy
    have hpos : 0 < x_distance ^ 2 + y_distance ^ 2 := by
      rcases not_and_or.mp hxy with hx | hy
      · have h1 : 0 < x_distance ^ 2 :=
          lt_of_le_of_ne (sq_nonneg x_distance) (Ne.symm (pow_ne_zero 2 hx))
        nlinarith [sq_nonneg y_distance]
      · have h1 : 0 < y_distance ^ 2 :=
          lt_of_le_of_ne (sq_nonneg y_distance) (Ne.symm (pow_ne_zero 2 hy))
        nlinarith [sq_nonneg x_distance]
    have hsq : Real.sqrt (x_distance ^ 2 + y_distance ^ 2) ≠ 0 :=
      (Real.sqrt_pos.mpr hpos).ne'
    unfold ZeroVibrationStreamGenerator2D.shape_trapezoidal_motion
    rw [himp, except_ok_bind, if_neg hsq]
    cases htm : trapezoidal_motion_generator (Real.sqrt (x_distance ^ 2 + y_distance ^ 2))
        acceleration deceleration max_speed_limit with
    | error e =>
      intro hcontra
      have hc2 : (Except.error e : Except String (List StreamSegment2D)) =
          Except.error "ZeroDivisionError: zero total distance" := hcontra
      have he := tmg_error_is_zero_division _ _ _ _ _ htm
      subst he
      exact absurd ((Except.error.injEq _ _).mp hc2) (by decide)
    | ok u =>
      intro hcontra
      have hc2 : (match create_stream_trajectory_2d
          ((calculate_acceleration_convolution imp.1 imp.2.1 u.1
              (u.2.map (fun a => a * (x_distance /
                Real.sqrt (x_distance ^ 2 + y_distance ^ 2))))).1.zip
            (calculate_acceleration_convolution imp.1 imp.2.1 u.1
              (u.2.map (fun a => a * (x_distance /
                Real.sqrt (x_distance ^ 2 + y_distance ^ 2))))).2)
          ((calculate_acceleration_convolution imp.1 imp.2.2 u.1
              (u.2.map (fun a => a * (y_distance /
                Real.sqrt (x_distance ^ 2 + y_distance ^ 2))))).1.zip
            (calculate_acceleration_convolution imp.1 imp.2.2 u.1
              (u.2.map (fun a => a * (y_distance /
                Real.sqrt (x_distance ^ 2 + y_distance ^ 2))))).2) with
        | [] => (Except.error "IndexError" : Except String (List StreamSegment2D))
        | s :: rest => Except.ok (set_last_xy x_distance y_distance (s :: rest))) =
          Except.error "ZeroDivisionError: zero total distance" := hcontra
      cases hcs : create_stream_trajectory_2d
          ((calculate_acceleration_convolution imp.1 imp.2.1 u.1
              (u.2.map (fun a => a * (x_distance /
                Real.sqrt (x_distance ^ 2 + y_distance ^ 2))))).1.zip
            (calculate_acceleration_convolution imp.1 imp.2.1 u.1
              (u.2.map (fun a => a * (x_distance /
                Real.sqrt (x_distance ^ 2 + y_distance ^ 2))))).2)
          ((calculate_acceleration_convolution imp.1 imp.2.2 u.1
              (u.2.map (fun a => a * (y_distance /
                Real.sqrt (x_distance ^ 2 + y_distance ^ 2))))).1.zip
            (calculate_acceleration_convolution imp.1 imp.2.2 u.1
              (u.2.map (fun a => a * (y_distance /
                Real.sqrt (x_distance ^ 2 + y_distance ^ 2))))).2) with
      | nil =>
        rw [hcs] at hc2
        exact absurd ((Except.error.injEq _ _).mp hc2) (by decide)
      | cons s rest =>
        rw [hcs] at hc2
        simp at hc2

/-- C8 witness: with two valid ZV plants, the zero move `(0, 0)` fails with
the degenerate-move error, while the move `(1, 0)` does not produce it. -/
theorem claim_C8_witness :
    ZeroVibrationStreamGenerator2D.shape_trapezoidal_motion (1, 0) (1, 0)
        (some ShaperType.ZV) 0 0 1 1 1 =
      Except.error "ZeroDivisionError: zero total distance" ∧
    ZeroVibrationStreamGenerator2D.shape_trapezoidal_motion (1, 0) (1, 0)
        (some ShaperType.ZV) 1 0 1 1 1 ≠
      Except.error "ZeroDivisionError: zero total distance" :=
  ⟨(claim_C8_degenerate_move (1, 0) (1, 0) (some ShaperType.ZV) 0 0 1 1 1 _
      impulses2d_eval).1 rfl rfl,
   (claim_C8_degenerate_move (1, 0) (1, 0) (some ShaperType.ZV) 1 0 1 1 1 _
      impulses2d_eval).2 (by norm_num)⟩

end

end MotionShaping
